import Mathlib

/-!
Verification development for the r2-object-thrower upload/usage pipeline.

Shallow embedding of the core logic of `api/upload.js` and `api/usage.js`
(plus the worker-backed handler variant): content validation by magic
numbers, sliding-window rate limiting, usage-oracle fallback, quota
projection, the usage endpoint, and the upload handler's control flow.

Conventions of the embedding:
- JS numbers used for sizes/percentages are modelled as exact rationals
  (`ℚ`); display-only rounding (`toFixed`) is not modelled.
- Byte buffers are `List Nat`; timestamps are `Nat` milliseconds.
- Network calls and file reads are modelled by explicit outcome values
  passed as inputs; `try`/`catch` becomes case analysis on the outcome.
- The upload handler is modelled as a function producing the list of
  observable events (responses, blob-store puts, temp-file unlinks,
  usage accounting) so that ordering and cleanup claims are statable.
-/

/-! ## Constants (`FREE_PLAN_LIMITS`, `USAGE_THRESHOLD`, rate-limit window) -/

def STORAGE_GB : ℚ := 10

def CLASS_A_OPERATIONS : ℚ := 1000000

def CLASS_B_OPERATIONS : ℚ := 10000000

def USAGE_THRESHOLD : ℚ := 1/2

/-- Rate-limit window: `15 * 60 * 1000` ms. -/
def windowMs : Nat := 15 * 60 * 1000

/-- Rate-limit cap: `maxAttempts = 20`. -/
def maxAttempts : Nat := 20

/-! ## Content validator (`ALLOWED_MIME_TYPES`, `MAGIC_NUMBERS`,
`validateFileType`, `validateFile` from `api/upload.js`) -/

def ALLOWED_MIME_TYPES : List String :=
  ["image/jpeg", "image/jpg", "image/png", "image/gif", "image/webp"]

def MAGIC_NUMBERS : List (String × List Nat) :=
  [("image/jpeg", [0xff, 0xd8, 0xff]),
   ("image/png", [0x89, 0x50, 0x4e, 0x47]),
   ("image/gif", [0x47, 0x49, 0x46]),
   ("image/webp", [0x52, 0x49, 0x46, 0x46])]

/-- The JS check `signature.every((byte, index) => buffer[index] === byte)`:
`signature` must be a byte-for-byte prefix of `buffer` (an out-of-range read
gives `undefined`, which never equals a byte, so a short buffer fails). -/
def sigMatches (buffer signature : List Nat) : Bool :=
  signature.isPrefixOf buffer

/-- `validateFileType(buffer, mimetype)`: scan the `MAGIC_NUMBERS` entries;
an entry applies when its key equals the claimed type, with `image/jpg`
treated as `image/jpeg`; accept iff an applicable signature matches. -/
def validateFileType (buffer : List Nat) (mimetype : String) : Bool :=
  MAGIC_NUMBERS.any fun p =>
    (p.1 == mimetype || (p.1 == "image/jpeg" && mimetype == "image/jpg"))
      && sigMatches buffer p.2

/-- The signature the validator requires for a claimed type (the unique
`MAGIC_NUMBERS` entry applicable to it, `image/jpg` aliased to `image/jpeg`). -/
def claimedSignature (mimetype : String) : Option (List Nat) :=
  (MAGIC_NUMBERS.find? fun p =>
    p.1 == mimetype || (p.1 == "image/jpeg" && mimetype == "image/jpg")).map Prod.snd

/-- Rejection reasons thrown by `validateFile` (each a distinct `Error`). -/
inductive RejectReason where
  | emptyFile
  | contentMismatch
  | fileTooLarge
  | suspiciousContent
  deriving DecidableEq, Repr

/-- Lower-case an ASCII byte, for the case-insensitive content scan. -/
def lowerByte (b : Nat) : Nat := if 65 ≤ b ∧ b ≤ 90 then b + 32 else b

/-- ASCII byte sequences of the suspicious markers scanned for by
`validateFile` (already lower-case). -/
def SUSPICIOUS_PATTERNS : List (List Nat) :=
  [[60, 115, 99, 114, 105, 112, 116],                    -- "<script"
   [60, 63, 112, 104, 112],                              -- "<?php"
   [60, 37],                                             -- "<%"
   [106, 97, 118, 97, 115, 99, 114, 105, 112, 116, 58],  -- "javascript:"
   [100, 97, 116, 97, 58, 116, 101, 120, 116, 47, 104, 116, 109, 108]]
                                                         -- "data:text/html"

/-- The scan of `buffer.toString("utf8", 0, min(length, 1024)).toLowerCase()`
for the suspicious markers, modelled at byte level (the markers are ASCII). -/
def suspiciousContentScan (buffer : List Nat) : Bool :=
  let content := (buffer.take (min buffer.length 1024)).map lowerByte
  SUSPICIOUS_PATTERNS.any fun pat => decide (pat <:+: content)

/-- `validateFile` on an already-read buffer: empty check, magic-number check
against the first 12 bytes, per-file size cap, suspicious-content scan, in
that order; the first failing check throws its reason. -/
def validateFile (buffer : List Nat) (mimetype : String) :
    Except RejectReason Unit :=
  let firstBytes := buffer.take 12
  if buffer.length = 0 then .error .emptyFile
  else if !validateFileType firstBytes mimetype then .error .contentMismatch
  else if buffer.length > 10 * 1024 * 1024 then .error .fileTooLarge
  else if suspiciousContentScan buffer then .error .suspiciousContent
  else .ok ()

/-! ## Origin check (`isValidOrigin` from `api/upload.js`) -/

/-- The two environment variables feeding the origin allow-list. -/
structure Env where
  allowedOrigin : Option String
  vercelUrl : Option String
  deriving DecidableEq

/-- The allow-list `[ALLOWED_ORIGIN, https://VERCEL_URL, localhost http and
https].filter(Boolean)`: unset variables and empty strings are dropped. -/
def allowedOrigins (env : Env) : List String :=
  ([env.allowedOrigin,
    env.vercelUrl.map fun u => "https://" ++ u,
    some "http://localhost:3000",
    some "https://localhost:3000"].filterMap id).filter fun s => s ≠ ""

/-- `isValidOrigin(origin)` is `!origin || allowedOrigins.includes(origin)`:
an absent header is `undefined` and an empty header is `""`, both falsy. -/
def isValidOrigin (env : Env) (origin : Option String) : Bool :=
  match origin with
  | none => true
  | some o => o == "" || (allowedOrigins env).contains o

/-! ## Rate limiter (`rateLimitCheck`, `cleanupRateLimit` from
`api/upload.js`), projected onto a single client identity: the state is that
identity's stored timestamp list. -/

/-- The effect of `cleanupRateLimit()` on one identity's list: drop entries
outside the window (an identity whose list empties is deleted, which for a
single list is the same as keeping the empty list). -/
def cleanupRateLimitEntry (now : Nat) (attempts : List Nat) : List Nat :=
  attempts.filter fun time => decide (now - time < windowMs)

/-- `rateLimitCheck`: filter the stored list to the window, reject without
mutating if the cap is reached, otherwise append `now` and store. `sweep`
models the `Math.random() < 0.01` draw that triggers `cleanupRateLimit` after
a successful admission. `Nat` subtraction agrees with the JS comparison:
for `time > now` both sides accept the entry. -/
def rateLimitCheck (attempts : List Nat) (now : Nat) (sweep : Bool) :
    Bool × List Nat :=
  let recentAttempts := attempts.filter fun time => decide (now - time < windowMs)
  if maxAttempts ≤ recentAttempts.length then (false, attempts)
  else
    let stored := recentAttempts ++ [now]
    (true, if sweep then cleanupRateLimitEntry now stored else stored)

/-- Run the rate limiter over a sequence of `(now, sweep)` attempts from a
starting stored list; returns the admitted timestamps (in order) and the
final stored list. -/
def rlRun (attempts : List Nat) : List (Nat × Bool) → List Nat × List Nat
  | [] => ([], attempts)
  | (now, sweep) :: rest =>
    let r := rateLimitCheck attempts now sweep
    let res := rlRun r.2 rest
    (if r.1 then now :: res.1 else res.1, res.2)

/-- Membership of a timestamp `t` in the sliding window that the limiter
consults at time `now`: `now - t < windowMs` (half-open `(now - W, now]` for
past timestamps) together with `t ≤ now`. -/
def inWin (now t : Nat) : Bool :=
  decide (now < t + windowMs) && decide (t ≤ now)

/-! ## Usage oracle client (`getCurrentUsage` from `api/upload.js`) -/

/-- One storage dimension of a usage snapshot (`usage.storage`). -/
structure StorageUsage where
  currentGB : ℚ
  limit : ℚ
  percentage : ℚ
  currentBytes : Option ℚ
  deriving DecidableEq

/-- One operations dimension of a usage snapshot (`usage.classA` /
`usage.classB`). -/
structure OpsUsage where
  currentValue : ℚ
  limit : ℚ
  percentage : ℚ
  deriving DecidableEq

/-- A usage snapshot as consumed by `checkUsageLimits`. A snapshot that
lacks `shouldBlockUploads` (such as the fallback) carries `false`, matching
the falsiness of `undefined` where the field is tested. -/
structure Usage where
  storage : StorageUsage
  classA : OpsUsage
  classB : OpsUsage
  error : Option String
  shouldBlockUploads : Bool
  deriving DecidableEq

/-- The conservative synthetic snapshot `getCurrentUsage` returns in its
`catch`: every dimension at 60% of its limit, the failure message in
`error`. -/
def fallbackUsage (msg : String) : Usage where
  storage :=
    { currentGB := STORAGE_GB * (6/10)
      limit := STORAGE_GB
      percentage := 60
      currentBytes := some (STORAGE_GB * (6/10) * 1024 * 1024 * 1024) }
  classA :=
    { currentValue := CLASS_A_OPERATIONS * (6/10)
      limit := CLASS_A_OPERATIONS
      percentage := 60 }
  classB :=
    { currentValue := CLASS_B_OPERATIONS * (6/10)
      limit := CLASS_B_OPERATIONS
      percentage := 60 }
  error := some msg
  shouldBlockUploads := false

/-- Outcome of the `fetch` of `/api/usage` inside `getCurrentUsage`:
a 200 JSON body whose `usage` field is well formed, a 200 JSON body of the
wrong shape (`okMalformed`), or one of the failures the `catch` handles. -/
inductive FetchOutcome where
  | ok (usage : Usage)
  | okMalformed
  | httpError (status : Nat) (statusText : String)
  | nonJson (bodyPrefix : String)
  | netError (msg : String)
  | timeout
  deriving DecidableEq

/-- Whether the outcome is one of the downstream failures (non-OK status,
non-JSON body, network error, timeout) that trigger the fallback. -/
def FetchOutcome.isFailure : FetchOutcome → Bool
  | .ok _ => false
  | .okMalformed => false
  | _ => true

/-- The `error.message` produced for each failing outcome. -/
def failureMessage : FetchOutcome → String
  | .httpError status statusText => s!"Usage API error: {status} {statusText}"
  | .nonJson bodyPrefix =>
      s!"Usage API returned non-JSON response: " ++ bodyPrefix.take 200
  | .netError msg => msg
  | _ => "The operation was aborted due to timeout"

/-- What `getCurrentUsage` hands to its caller: a well-formed snapshot, or a
200-JSON value of the wrong shape that makes the caller's field accesses
throw later (`getCurrentUsage` itself never raises). -/
inductive UsageData where
  | wellFormed (u : Usage)
  | malformed
  deriving DecidableEq

/-- `getCurrentUsage()`: return `data.usage` on a 200 JSON response, and the
60% fallback snapshot on every downstream failure. -/
def getCurrentUsage : FetchOutcome → UsageData
  | .ok u => .wellFormed u
  | .okMalformed => .malformed
  | o => .wellFormed (fallbackUsage (failureMessage o))

/-! ## Quota gate (`checkUsageLimits` from `api/upload.js`) -/

/-- The three quota dimensions. (The JS pushes descriptive strings with the
projected percentages into `exceeded`; the dimension is what identifies the
entry.) -/
inductive Dimension where
  | storage
  | classA
  | classB
  deriving DecidableEq, Repr

/-- Result of `checkUsageLimits` (the response-echo `usage` blob is display
shaping and is not modelled beyond the fields below). -/
structure CheckResult where
  canUpload : Bool
  exceededLimits : List Dimension
  projectedStorageGB : ℚ
  storagePercentage : ℚ
  projectedClassA : ℚ
  classAPercentage : ℚ
  classBPercentage : ℚ
  analyticsError : Option String
  shouldBlockUploads : Bool
  deriving DecidableEq

/-- The pure part of `checkUsageLimits(fileSize)`, applied to the snapshot
`getCurrentUsage` returned: project storage and class A, convert to
percentages of the configured limits (class B keeps the snapshot's
percentage), and collect every dimension strictly above the threshold. -/
def checkUsageLimits (currentUsage : Usage) (fileSize : ℚ) : CheckResult :=
  let projectedStorageBytes := currentUsage.storage.currentBytes.getD 0 + fileSize
  let projectedStorageGB := projectedStorageBytes / (1024 * 1024 * 1024)
  let projectedClassA := currentUsage.classA.currentValue + 1
  let storagePercentage := projectedStorageGB / STORAGE_GB * 100
  let classAPercentage := projectedClassA / CLASS_A_OPERATIONS * 100
  let classBPercentage := currentUsage.classB.percentage
  let threshold := USAGE_THRESHOLD * 100
  let exceeded :=
    (if storagePercentage > threshold then [Dimension.storage] else [])
      ++ (if classAPercentage > threshold then [Dimension.classA] else [])
      ++ (if classBPercentage > threshold then [Dimension.classB] else [])
  { canUpload := exceeded.isEmpty
    exceededLimits := exceeded
    projectedStorageGB := projectedStorageGB
    storagePercentage := storagePercentage
    projectedClassA := projectedClassA
    classAPercentage := classAPercentage
    classBPercentage := classBPercentage
    analyticsError := currentUsage.error
    shouldBlockUploads := currentUsage.shouldBlockUploads }

/-! ## Usage endpoint (`getR2Usage` and the handler of `api/usage.js`) -/

/-- Outcome of the analytics queries inside `getR2Usage`: processed
operation counts and the latest storage data point, or a failure. -/
inductive R2Outcome where
  | ok (storageBytes objectCount classAOps classBOps : ℚ)
  | fail (msg : String)
  deriving DecidableEq

/-- Whether the analytics outcome is a failure. -/
def R2Outcome.isFail : R2Outcome → Bool
  | .ok _ _ _ _ => false
  | .fail _ => true

/-- What `getR2Usage` returns to the usage handler. -/
structure R2UsageData where
  storageBytes : ℚ
  objectCount : ℚ
  classAOperations : ℚ
  classBOperations : ℚ
  error : Option String
  deriving DecidableEq

/-- `getR2Usage()` of `api/usage.js`: missing Cloudflare configuration or a
failed analytics query both yield all-zero counters together with an error
message; a successful query yields the processed data. -/
def getR2Usage (configOk : Bool) (outcome : R2Outcome) : R2UsageData :=
  if !configOk then
    { storageBytes := 0, objectCount := 0, classAOperations := 0
      classBOperations := 0
      error := some "Missing configuration: email, global API key, or account ID" }
  else
    match outcome with
    | .ok s oc a b =>
      { storageBytes := s, objectCount := oc, classAOperations := a
        classBOperations := b, error := none }
    | .fail msg =>
      { storageBytes := 0, objectCount := 0, classAOperations := 0
        classBOperations := 0, error := some msg }

/-- Storage block of the usage endpoint's 200 response. -/
structure UsageDimStorage where
  currentGB : ℚ
  currentBytes : ℚ
  objectCount : ℚ
  limit : ℚ
  percentage : ℚ
  deriving DecidableEq

/-- Operations block of the usage endpoint's 200 response. -/
structure UsageDimOps where
  currentValue : ℚ
  limit : ℚ
  percentage : ℚ
  deriving DecidableEq

/-- The warnings the usage handler can emit (the JS strings, keyed by their
content). -/
inductive UsageWarning where
  | storageHigh (pct : ℚ)
  | classAHigh (pct : ℚ)
  | classBHigh (pct : ℚ)
  | analyticsError (msg : String)
  | configIncomplete
  deriving DecidableEq

/-- The `usage` object of the endpoint's 200 response. -/
structure UsageResponse where
  storage : UsageDimStorage
  classA : UsageDimOps
  classB : UsageDimOps
  warnings : List UsageWarning
  shouldBlockUploads : Bool
  deriving DecidableEq

/-- The handler of `GET /api/usage` (display rounding of `toFixed` not
modelled): with incomplete configuration it returns zeroed usage with a
configuration warning; otherwise it computes each percentage from
`getR2Usage`'s counters against the configured limits, collects warnings at
the 80% critical threshold plus any analytics error, and sets
`shouldBlockUploads` at the 50% blocking threshold. -/
def usageHandler (configOk : Bool) (outcome : R2Outcome) : UsageResponse :=
  if !configOk then
    { storage :=
        { currentGB := 0, currentBytes := 0, objectCount := 0
          limit := STORAGE_GB, percentage := 0 }
      classA := { currentValue := 0, limit := CLASS_A_OPERATIONS, percentage := 0 }
      classB := { currentValue := 0, limit := CLASS_B_OPERATIONS, percentage := 0 }
      warnings := [.configIncomplete]
      shouldBlockUploads := false }
  else
    let currentUsage := getR2Usage true outcome
    let storageGB := currentUsage.storageBytes / (1024 * 1024 * 1024)
    let storagePercentage := storageGB / STORAGE_GB * 100
    let classAPercentage :=
      currentUsage.classAOperations / CLASS_A_OPERATIONS * 100
    let classBPercentage :=
      currentUsage.classBOperations / CLASS_B_OPERATIONS * 100
    let criticalThreshold : ℚ := 80
    let blockingThreshold : ℚ := 50
    let warnings :=
      (if storagePercentage ≥ criticalThreshold
        then [UsageWarning.storageHigh storagePercentage] else [])
        ++ (if classAPercentage ≥ criticalThreshold
            then [UsageWarning.classAHigh classAPercentage] else [])
        ++ (if classBPercentage ≥ criticalThreshold
            then [UsageWarning.classBHigh classBPercentage] else [])
        ++ (match currentUsage.error with
            | some e => [UsageWarning.analyticsError e]
            | none => [])
    let shouldBlockUploads :=
      storagePercentage ≥ blockingThreshold
        ∨ classAPercentage ≥ blockingThreshold
        ∨ classBPercentage ≥ blockingThreshold
    { storage :=
        { currentGB := storageGB
          currentBytes := currentUsage.storageBytes
          objectCount := currentUsage.objectCount
          limit := STORAGE_GB
          percentage := storagePercentage }
      classA :=
        { currentValue := currentUsage.classAOperations
          limit := CLASS_A_OPERATIONS
          percentage := classAPercentage }
      classB :=
        { currentValue := currentUsage.classBOperations
          limit := CLASS_B_OPERATIONS
          percentage := classBPercentage }
      warnings := warnings
      shouldBlockUploads := decide shouldBlockUploads }

/-! ## Upload handler of `api/upload.js`, as an event-trace model -/

/-- Observable events of one upload-handler invocation. `unlinkTemp` is an
`fs.unlinkSync(file.filepath)` on the actual temp file; `usageIncrement` is
a usage-accounting write (only the worker-backed variant performs one). -/
inductive Ev where
  | respond (status : Nat)
  | rateAdmit
  | parseStart
  | validateStart
  | quotaStart
  | quotaApproved
  | putStart
  | putOk
  | unlinkTemp
  | usageIncrement
  deriving DecidableEq, Repr

/-- The parsed file field (`files.file?.[0]`): formidable reports a `null`
`originalFilename` when the client sent none. -/
structure FileInfo where
  originalFilename : Option String
  size : ℚ
  mimetype : String
  deriving DecidableEq

/-- Inputs of one invocation of the `api/upload.js` handler: request data
plus the outcome of each fallible external step, in program order. -/
structure HandlerInput where
  envOk : Bool
  method : String
  env : Env
  origin : Option String
  rateState : List Nat
  now : Nat
  sweep : Bool
  contentLength : Nat
  parseResult : Except String (Option FileInfo)
  read1 : Except String (List Nat)
  usageFetch : FetchOutcome
  read2 : Except String (List Nat)
  s3Result : Except String Unit

/-- Result of one invocation: the event trace and the rate-limit store
entry of the client identity afterwards. -/
structure HandlerResult where
  trace : List Ev
  rateState : List Nat
  deriving DecidableEq

/-- `validExtensions` of `api/upload.js`. -/
def validExtensions : List (String × List String) :=
  [("image/jpeg", ["jpg", "jpeg"]),
   ("image/png", ["png"]),
   ("image/gif", ["gif"]),
   ("image/webp", ["webp"])]

/-- `validExtensions[mimetype]?.includes(ext)` with optional chaining: a
mimetype without an entry (such as `image/jpg`) admits no extension. -/
def extensionsFor (mimetype : String) : List String :=
  ((validExtensions.find? fun p => p.1 == mimetype).map Prod.snd).getD []

/-- `file.originalFilename.split(".").pop().toLowerCase()`. -/
def extensionOf (name : String) : String :=
  ((name.splitOn ".").getLastD "").toLower

/-- The `api/upload.js` handler, faithful to its early-return structure:
environment check, method, origin, rate limit, content-length, multipart
parse, MIME allow-list, `validateFile`, usage check, quota gate, extension
cross-check, second file read, blob-store put, cleanup, response. A `null`
`originalFilename` makes `.split` throw a `TypeError` caught only by the
outer catch-all, whose cleanup consults `req.files` — a field this handler
never populates — so that path performs no unlink. The post-success
re-fetch of usage only shapes the response body and is not modelled. -/
def uploadHandler (i : HandlerInput) : HandlerResult :=
  if !i.envOk then ⟨[.respond 500], i.rateState⟩
  else if i.method != "POST" then ⟨[.respond 405], i.rateState⟩
  else if !isValidOrigin i.env i.origin then ⟨[.respond 403], i.rateState⟩
  else
    let rl := rateLimitCheck i.rateState i.now i.sweep
    if !rl.1 then ⟨[.respond 429], rl.2⟩
    else
      let st := rl.2
      if 12 * 1024 * 1024 < i.contentLength then
        ⟨[.rateAdmit, .respond 413], st⟩
      else
        match i.parseResult with
        | .error _ => ⟨[.rateAdmit, .parseStart, .respond 400], st⟩
        | .ok none => ⟨[.rateAdmit, .parseStart, .respond 400], st⟩
        | .ok (some file) =>
          if !(ALLOWED_MIME_TYPES.contains file.mimetype) then
            ⟨[.rateAdmit, .parseStart, .unlinkTemp, .respond 400], st⟩
          else
            match i.read1 with
            | .error _ =>
              ⟨[.rateAdmit, .parseStart, .validateStart, .unlinkTemp,
                .respond 400], st⟩
            | .ok buffer =>
              match validateFile buffer file.mimetype with
              | .error _ =>
                ⟨[.rateAdmit, .parseStart, .validateStart, .unlinkTemp,
                  .respond 400], st⟩
              | .ok _ =>
                match getCurrentUsage i.usageFetch with
                | .malformed =>
                  ⟨[.rateAdmit, .parseStart, .validateStart, .quotaStart,
                    .unlinkTemp, .respond 500], st⟩
                | .wellFormed u =>
                  let usageCheck := checkUsageLimits u file.size
                  if !usageCheck.canUpload || usageCheck.shouldBlockUploads then
                    ⟨[.rateAdmit, .parseStart, .validateStart, .quotaStart,
                      .unlinkTemp, .respond 429], st⟩
                  else
                    match file.originalFilename with
                    | none =>
                      ⟨[.rateAdmit, .parseStart, .validateStart, .quotaStart,
                        .quotaApproved, .respond 500], st⟩
                    | some name =>
                      if !(extensionsFor file.mimetype).contains
                          (extensionOf name) then
                        ⟨[.rateAdmit, .parseStart, .validateStart, .quotaStart,
                          .quotaApproved, .unlinkTemp, .respond 400], st⟩
                      else
                        match i.read2 with
                        | .error _ =>
                          ⟨[.rateAdmit, .parseStart, .validateStart,
                            .quotaStart, .quotaApproved, .unlinkTemp,
                            .respond 500], st⟩
                        | .ok _ =>
                          match i.s3Result with
                          | .error _ =>
                            ⟨[.rateAdmit, .parseStart, .validateStart,
                              .quotaStart, .quotaApproved, .putStart,
                              .unlinkTemp, .respond 500], st⟩
                          | .ok _ =>
                            ⟨[.rateAdmit, .parseStart, .validateStart,
                              .quotaStart, .quotaApproved, .putStart, .putOk,
                              .unlinkTemp, .respond 200], st⟩

/-! ## Worker-backed upload handler variant (the second handler file):
`getR2Usage` against the counter worker, quota gate, put, then a best-effort
`incrementUsageCounter` strictly after the confirmed write. -/

/-- Usage data of the worker-backed `getR2Usage`. -/
structure P2Usage where
  storageBytes : ℚ
  classAOperations : ℚ
  classBOperations : ℚ
  error : Option String
  deriving DecidableEq

/-- Outcome of the worker `fetch` in the variant's `getR2Usage`. -/
inductive P2Fetch where
  | noWorkerUrl
  | ok (storageBytes classAOps classBOps : ℚ)
  | fail (msg : String)
  deriving DecidableEq

/-- The variant's `getR2Usage()`: zeros without a configured worker, the
fetched counters on success, and a conservative 40%-of-limit estimate with
the error message on failure. -/
def p2GetR2Usage : P2Fetch → P2Usage
  | .noWorkerUrl => ⟨0, 0, 0, none⟩
  | .ok s a b => ⟨s, a, b, none⟩
  | .fail msg =>
    ⟨STORAGE_GB * 1024 * 1024 * 1024 * (4/10),
     CLASS_A_OPERATIONS * (4/10), CLASS_B_OPERATIONS * (4/10), some msg⟩

/-- Result of the variant's `checkUsageLimits` (usage fractions, not
percentages). -/
structure P2Check where
  canUpload : Bool
  exceededLimits : List Dimension
  storageUsage : ℚ
  classAUsage : ℚ
  classBUsage : ℚ
  workerError : Option String
  deriving DecidableEq

/-- The pure part of the variant's `checkUsageLimits(fileSize)`: projected
usage as a fraction of each limit, compared strictly against
`USAGE_THRESHOLD`. -/
def p2CheckUsageLimits (currentUsage : P2Usage) (fileSize : ℚ) : P2Check :=
  let projectedStorageBytes := currentUsage.storageBytes + fileSize
  let projectedClassA := currentUsage.classAOperations + 1
  let storageUsage := projectedStorageBytes / (STORAGE_GB * 1024 * 1024 * 1024)
  let classAUsage := projectedClassA / CLASS_A_OPERATIONS
  let classBUsage := currentUsage.classBOperations / CLASS_B_OPERATIONS
  let exceeded :=
    (if storageUsage > USAGE_THRESHOLD then [Dimension.storage] else [])
      ++ (if classAUsage > USAGE_THRESHOLD then [Dimension.classA] else [])
      ++ (if classBUsage > USAGE_THRESHOLD then [Dimension.classB] else [])
  { canUpload := exceeded.isEmpty
    exceededLimits := exceeded
    storageUsage := storageUsage
    classAUsage := classAUsage
    classBUsage := classBUsage
    workerError := currentUsage.error }

/-- Inputs of the worker-backed handler variant. -/
structure P2Input where
  method : String
  parseResult : Except String (Option FileInfo)
  workerFetch : P2Fetch
  readBuffer : Except String (List Nat)
  s3Result : Except String Unit

/-- The worker-backed handler variant as an event trace: method check,
parse (a parse failure reaches the outer catch, which performs no cleanup),
MIME allow-list, quota gate, file read, filename derivation, put, usage
increment strictly after the successful put, unlink, 200. -/
def p2Handler (i : P2Input) : List Ev :=
  if i.method != "POST" then [.respond 405]
  else
    match i.parseResult with
    | .error _ => [.respond 500]
    | .ok none => [.parseStart, .respond 400]
    | .ok (some file) =>
      if !(ALLOWED_MIME_TYPES.contains file.mimetype) then
        [.parseStart, .unlinkTemp, .respond 400]
      else
        let usageCheck :=
          p2CheckUsageLimits (p2GetR2Usage i.workerFetch) file.size
        if !usageCheck.canUpload then
          [.parseStart, .quotaStart, .unlinkTemp, .respond 429]
        else
          match i.readBuffer with
          | .error _ => [.parseStart, .quotaStart, .quotaApproved, .respond 500]
          | .ok _ =>
            match file.originalFilename with
            | none => [.parseStart, .quotaStart, .quotaApproved, .respond 500]
            | some _ =>
              match i.s3Result with
              | .error _ =>
                [.parseStart, .quotaStart, .quotaApproved, .putStart,
                 .respond 500]
              | .ok _ =>
                [.parseStart, .quotaStart, .quotaApproved, .putStart, .putOk,
                 .usageIncrement, .unlinkTemp, .respond 200]

/-- First-occurrence precedence in a trace: walking the trace, `a` is seen
before any `b`; holds vacuously when `b` never occurs. -/
def precedes (a b : Ev) : List Ev → Bool
  | [] => true
  | e :: rest => if e = b then false else if e = a then true else precedes a b rest
/-! ## C1: content validation against the claimed type's signature -/

/-- C1 (counterexample): the claim promises a content-mismatch rejection for
every buffer whose leading bytes fail to match the claimed type's signature,
but the empty buffer — which matches no signature — is rejected with the
distinct empty-file reason instead (the empty check precedes the signature
check). -/
theorem contentValidator_empty_buffer_reason_differs :
    validateFileType (([] : List Nat).take 12) "image/jpeg" = false
      ∧ validateFile [] "image/jpeg" = .error .emptyFile
      ∧ RejectReason.emptyFile ≠ RejectReason.contentMismatch :=
  ⟨by decide, by rfl, by decide⟩

/-- C1 (amended): for every NONEMPTY buffer whose leading bytes do not
byte-for-byte match the signature associated with the claimed media type
(`image/jpg` aliased to `image/jpeg`), `validateFile` rejects with the
content-mismatch reason, for every allow-listed claimed type. -/
theorem contentValidator_rejects_unmatched_signature
    (buffer : List Nat) (mimetype : String) (sig : List Nat)
    (hne : buffer ≠ [])
    (hallowed : mimetype ∈ ALLOWED_MIME_TYPES)
    (hsig : claimedSignature mimetype = some sig)
    (hnomatch : ¬ sig <+: buffer) :
    validateFile buffer mimetype = .error .contentMismatch := by
  have hlen : ¬ buffer.length = 0 := by
    simpa [List.length_eq_zero] using hne
  have h12 : ¬ sig <+: buffer.take 12 := fun h =>
    hnomatch (List.prefix_take_iff.mp h).1
  have hvt : validateFileType (buffer.take 12) mimetype = false := by
    fin_cases hallowed <;>
      simp [claimedSignature, MAGIC_NUMBERS] at hsig <;>
      subst hsig <;>
      simp [validateFileType, MAGIC_NUMBERS, sigMatches] <;>
      (rw [Bool.eq_false_iff]; intro h; exact h12 (List.isPrefixOf_iff_prefix.mp h))
  simp [validateFile, hlen, hvt]

/-- C1 (witness): a buffer starting with the PNG signature, claimed as
`image/jpeg`, is rejected with the content-mismatch reason. -/
theorem contentValidator_rejects_unmatched_signature_witness :
    ([0x89, 0x50, 0x4e, 0x47] : List Nat) ≠ []
      ∧ "image/jpeg" ∈ ALLOWED_MIME_TYPES
      ∧ claimedSignature "image/jpeg" = some [0xff, 0xd8, 0xff]
      ∧ ¬ ([0xff, 0xd8, 0xff] : List Nat) <+: [0x89, 0x50, 0x4e, 0x47]
      ∧ validateFile [0x89, 0x50, 0x4e, 0x47] "image/jpeg"
          = .error .contentMismatch :=
  ⟨by decide, by decide, by decide, by decide,
   contentValidator_rejects_unmatched_signature [0x89, 0x50, 0x4e, 0x47]
     "image/jpeg" [0xff, 0xd8, 0xff] (by decide) (by decide) (by decide)
     (by decide)⟩

/-! ## C2: the quota gate's projection, threshold, and decision -/

/-- C2: `checkUsageLimits` projects storage as snapshot bytes plus the
pending size and class A as current plus one, leaves class B at the
snapshot's percentage, marks a dimension exceeded iff its projected
percentage of the configured limit strictly exceeds the 50% threshold,
reports every exceeded dimension, and permits iff none is exceeded. -/
theorem quotaGate_projection_threshold_decision (u : Usage) (fileSize : ℚ) :
    (checkUsageLimits u fileSize).projectedStorageGB
        = (u.storage.currentBytes.getD 0 + fileSize) / (1024 * 1024 * 1024)
      ∧ (checkUsageLimits u fileSize).projectedClassA
          = u.classA.currentValue + 1
      ∧ (checkUsageLimits u fileSize).classBPercentage = u.classB.percentage
      ∧ (Dimension.storage ∈ (checkUsageLimits u fileSize).exceededLimits
          ↔ (checkUsageLimits u fileSize).storagePercentage > 50)
      ∧ (Dimension.classA ∈ (checkUsageLimits u fileSize).exceededLimits
          ↔ (checkUsageLimits u fileSize).classAPercentage > 50)
      ∧ (Dimension.classB ∈ (checkUsageLimits u fileSize).exceededLimits
          ↔ (checkUsageLimits u fileSize).classBPercentage > 50)
      ∧ ((checkUsageLimits u fileSize).canUpload = true
          ↔ (checkUsageLimits u fileSize).exceededLimits = []) := by
  have hthr : USAGE_THRESHOLD * 100 = 50 := by norm_num [USAGE_THRESHOLD]
  refine ⟨rfl, rfl, rfl, ?_, ?_, ?_, ?_⟩
  all_goals
    simp only [checkUsageLimits, hthr]
    split <;> split <;> split <;> simp_all [List.isEmpty_iff]

/-! ## C8: the origin check -/

/-- C8 (counterexample): an empty-string `Origin` header is present and not
in the allow-list, yet the check passes it (the JS `!origin` treats `""` as
falsy), so "rejects exactly when present and not allow-listed" fails. -/
theorem originCheck_empty_string_passes :
    isValidOrigin ⟨none, none⟩ (some "") = true
      ∧ some "" ≠ (none : Option String)
      ∧ "" ∉ allowedOrigins ⟨none, none⟩ :=
  ⟨by decide, by decide, by decide⟩

/-- C8 (amended): the origin check passes every absent origin, and fails
exactly when the declared origin is present, nonempty, and not in the
configured allow-list; under a valid environment and POST method the
handler's trace is a bare 403 response exactly when the check fails. -/
theorem originCheck_rejects_iff_nonempty_unlisted :
    (∀ env : Env, isValidOrigin env none = true)
      ∧ (∀ (env : Env) (origin : Option String),
          isValidOrigin env origin = false
            ↔ ∃ o, origin = some o ∧ o ≠ "" ∧ o ∉ allowedOrigins env)
      ∧ (∀ i : HandlerInput, i.envOk = true → i.method = "POST" →
          ((uploadHandler i).trace = [.respond 403]
            ↔ isValidOrigin i.env i.origin = false)) := by
  refine ⟨fun env => rfl, ?_, ?_⟩
  · intro env origin
    cases origin with
    | none => simp [isValidOrigin]
    | some o =>
      simp [isValidOrigin, List.contains, List.elem_iff]
  · intro i h1 h2
    cases hv : isValidOrigin i.env i.origin with
    | false => simp [uploadHandler, h1, h2, hv]
    | true =>
      simp only [uploadHandler, h1, h2, hv, Bool.not_true, Bool.false_eq_true,
        if_false, iff_false]
      repeat' split
      all_goals simp

/-- Concrete request with a nonempty, unlisted `Origin` header. -/
def c8input : HandlerInput where
  envOk := true
  method := "POST"
  env := ⟨none, none⟩
  origin := some "https://evil.example"
  rateState := []
  now := 0
  sweep := false
  contentLength := 0
  parseResult := .ok none
  read1 := .ok []
  usageFetch := .okMalformed
  read2 := .ok []
  s3Result := .ok ()

/-- C8 (witness): the amended theorem applied to a concrete unlisted-origin
request, which draws a bare 403 response. -/
theorem originCheck_rejects_iff_nonempty_unlisted_witness :
    (uploadHandler c8input).trace = [.respond 403] :=
  (originCheck_rejects_iff_nonempty_unlisted.2.2 c8input rfl rfl).mpr (by decide)

/-! ## C4: the usage oracle client falls back instead of raising -/

/-- C4: `getCurrentUsage` is total (it returns a value for every downstream
outcome — the JS function never raises), and on every downstream failure
(non-OK status, non-JSON body, network error, timeout) it returns the
synthetic snapshot whose error indicator is populated with the failure
message and whose three percentages sit at the assumed-nonzero 60%. -/
theorem usageOracle_falls_back_on_failure (o : FetchOutcome)
    (hfail : o.isFailure = true) :
    getCurrentUsage o = .wellFormed (fallbackUsage (failureMessage o))
      ∧ (fallbackUsage (failureMessage o)).error = some (failureMessage o)
      ∧ (fallbackUsage (failureMessage o)).storage.percentage = 60
      ∧ (fallbackUsage (failureMessage o)).classA.percentage = 60
      ∧ (fallbackUsage (failureMessage o)).classB.percentage = 60
      ∧ (60 : ℚ) ≠ 0 := by
  cases o <;> simp_all [getCurrentUsage, fallbackUsage, FetchOutcome.isFailure]

/-- C4 (witness): the fallback at a concrete downstream timeout. -/
theorem usageOracle_falls_back_on_failure_witness :
    FetchOutcome.timeout.isFailure = true
      ∧ getCurrentUsage .timeout
          = .wellFormed (fallbackUsage (failureMessage .timeout)) :=
  ⟨rfl, (usageOracle_falls_back_on_failure .timeout rfl).1⟩

/-! ## C5: the usage endpoint's percentage invariant and its error fallback -/

/-- C5 (counterexample): on an analytics failure the usage endpoint DOES
assume zero current usage — `getR2Usage`'s catch returns all-zero counters,
so the response reports 0 for every current value and percentage and does
not block uploads — contradicting "never assumed zero on error". -/
theorem usageEndpoint_assumes_zero_on_error :
    (R2Outcome.fail "query failed").isFail = true
      ∧ (usageHandler true (.fail "query failed")).storage.currentBytes = 0
      ∧ (usageHandler true (.fail "query failed")).classA.currentValue = 0
      ∧ (usageHandler true (.fail "query failed")).classB.currentValue = 0
      ∧ (usageHandler true (.fail "query failed")).storage.percentage = 0
      ∧ (usageHandler true (.fail "query failed")).shouldBlockUploads = false
      ∧ (usageHandler true (.fail "query failed")).warnings
          = [.analyticsError "query failed"] := by
  refine ⟨rfl, ?_, ?_, ?_, ?_, ?_, ?_⟩ <;>
    norm_num [usageHandler, getR2Usage, STORAGE_GB, CLASS_A_OPERATIONS,
      CLASS_B_OPERATIONS]

/-- C5 (amended): every response of the usage endpoint reports each
dimension's percentage as current divided by the configured limit (times
100), computed against the configured limit — but on an upstream failure or
missing configuration the current usage is assumed ZERO (and the failure is
flagged by an analytics-error or configuration warning), rather than never
being assumed zero. -/
theorem usageEndpoint_percentage_invariant (configOk : Bool) (o : R2Outcome) :
    ((usageHandler configOk o).storage.percentage
        = (usageHandler configOk o).storage.currentBytes / (1024 * 1024 * 1024)
            / STORAGE_GB * 100)
      ∧ ((usageHandler configOk o).classA.percentage
          = (usageHandler configOk o).classA.currentValue
              / CLASS_A_OPERATIONS * 100)
      ∧ ((usageHandler configOk o).classB.percentage
          = (usageHandler configOk o).classB.currentValue
              / CLASS_B_OPERATIONS * 100)
      ∧ ((usageHandler configOk o).storage.limit = STORAGE_GB
          ∧ (usageHandler configOk o).classA.limit = CLASS_A_OPERATIONS
          ∧ (usageHandler configOk o).classB.limit = CLASS_B_OPERATIONS)
      ∧ (configOk = false →
          (usageHandler configOk o).storage.currentBytes = 0
            ∧ (usageHandler configOk o).classA.currentValue = 0
            ∧ (usageHandler configOk o).classB.currentValue = 0
            ∧ UsageWarning.configIncomplete ∈ (usageHandler configOk o).warnings)
      ∧ (∀ msg, configOk = true → o = .fail msg →
          (usageHandler configOk o).storage.currentBytes = 0
            ∧ (usageHandler configOk o).classA.currentValue = 0
            ∧ (usageHandler configOk o).classB.currentValue = 0
            ∧ UsageWarning.analyticsError msg
                ∈ (usageHandler configOk o).warnings) := by
  cases configOk <;> cases o <;>
    norm_num [usageHandler, getR2Usage, STORAGE_GB, CLASS_A_OPERATIONS,
      CLASS_B_OPERATIONS]
  all_goals try (intro msg h; exact R2Outcome.noConfusion h)

/-- C5 (witness): the amended theorem at a concrete analytics failure. -/
theorem usageEndpoint_percentage_invariant_witness :
    (usageHandler true (.fail "down")).classA.currentValue = 0
      ∧ UsageWarning.analyticsError "down"
          ∈ (usageHandler true (.fail "down")).warnings :=
  ⟨((usageEndpoint_percentage_invariant true (.fail "down")).2.2.2.2.2 "down"
      rfl rfl).2.1,
   ((usageEndpoint_percentage_invariant true (.fail "down")).2.2.2.2.2 "down"
      rfl rfl).2.2.2⟩

/-! ## C9: an unreachable usage endpoint blocks every upload -/

/-- Helper: against the 60% fallback snapshot the quota gate always refuses,
whatever the pending size — class A projects to 60.0001% and class B sits at
60%, both strictly above the 50% threshold. -/
lemma checkUsageLimits_fallback_canUpload_false (msg : String) (size : ℚ) :
    (checkUsageLimits (fallbackUsage msg) size).canUpload = false := by
  simp only [checkUsageLimits, fallbackUsage]
  norm_num [STORAGE_GB, CLASS_A_OPERATIONS, CLASS_B_OPERATIONS, USAGE_THRESHOLD]
  intro _
  simp

/-- Helper: on a failing fetch outcome, `getCurrentUsage` yields exactly the
fallback snapshot. -/
lemma getCurrentUsage_of_failure (o : FetchOutcome) (hfail : o.isFailure = true) :
    getCurrentUsage o = .wellFormed (fallbackUsage (failureMessage o)) := by
  cases o <;> simp_all [getCurrentUsage, FetchOutcome.isFailure]

/-- Helper: under a failing usage fetch the handler's trace is one of a
fixed set — in particular the only trace reaching the quota stage is the
quota rejection, since the fallback snapshot can never be approved. -/
lemma uploadHandler_traces_of_usageFailure (i : HandlerInput)
    (hfail : i.usageFetch.isFailure = true) :
    (uploadHandler i).trace ∈ [
      [Ev.respond 500], [Ev.respond 405], [Ev.respond 403], [Ev.respond 429],
      [Ev.rateAdmit, Ev.respond 413],
      [Ev.rateAdmit, Ev.parseStart, Ev.respond 400],
      [Ev.rateAdmit, Ev.parseStart, Ev.unlinkTemp, Ev.respond 400],
      [Ev.rateAdmit, Ev.parseStart, Ev.validateStart, Ev.unlinkTemp,
       Ev.respond 400],
      [Ev.rateAdmit, Ev.parseStart, Ev.validateStart, Ev.quotaStart,
       Ev.unlinkTemp, Ev.respond 429]] := by
  have hu := getCurrentUsage_of_failure i.usageFetch hfail
  have hcu := checkUsageLimits_fallback_canUpload_false
    (failureMessage i.usageFetch)
  simp only [uploadHandler]
  repeat' split
  all_goals simp_all [fallbackUsage]

/-- C9: when the usage fetch fails, the quota gate refuses every file size
— all three fallback dimensions sit at 60% of their limits, strictly above
the 50% threshold (storage needs only a nonnegative size) — and any handler
execution that reaches the quota stage under a failing fetch responds 429. -/
theorem usageFetch_failure_blocks_uploads :
    (∀ (msg : String) (size : ℚ),
        (checkUsageLimits (fallbackUsage msg) size).canUpload = false
          ∧ Dimension.classA
              ∈ (checkUsageLimits (fallbackUsage msg) size).exceededLimits
          ∧ Dimension.classB
              ∈ (checkUsageLimits (fallbackUsage msg) size).exceededLimits
          ∧ (0 ≤ size → Dimension.storage
              ∈ (checkUsageLimits (fallbackUsage msg) size).exceededLimits))
      ∧ (∀ i : HandlerInput, i.usageFetch.isFailure = true →
          Ev.quotaStart ∈ (uploadHandler i).trace →
          Ev.respond 429 ∈ (uploadHandler i).trace) := by
  constructor
  · intro msg size
    refine ⟨checkUsageLimits_fallback_canUpload_false msg size, ?_, ?_, ?_⟩
    · simp only [checkUsageLimits, fallbackUsage]
      norm_num [STORAGE_GB, CLASS_A_OPERATIONS, CLASS_B_OPERATIONS,
        USAGE_THRESHOLD]
    · simp only [checkUsageLimits, fallbackUsage]
      norm_num [STORAGE_GB, CLASS_A_OPERATIONS, CLASS_B_OPERATIONS,
        USAGE_THRESHOLD]
    · simp only [checkUsageLimits, fallbackUsage]
      norm_num [STORAGE_GB, CLASS_A_OPERATIONS, CLASS_B_OPERATIONS,
        USAGE_THRESHOLD]
      intro hsize
      left
      linarith
  · intro i hfail hq
    have ht := uploadHandler_traces_of_usageFailure i hfail
    simp only [List.mem_cons, List.mem_singleton, List.not_mem_nil,
      or_false] at ht
    rcases ht with h|h|h|h|h|h|h|h|h <;> rw [h] at hq ⊢ <;>
      first
        | exact absurd hq (by decide)
        | decide

/-- Concrete valid JPEG upload request whose usage fetch fails. -/
def c9input : HandlerInput where
  envOk := true
  method := "POST"
  env := ⟨none, none⟩
  origin := none
  rateState := []
  now := 0
  sweep := false
  contentLength := 2048
  parseResult := .ok (some ⟨some "a.jpg", 2048, "image/jpeg"⟩)
  read1 := .ok [0xff, 0xd8, 0xff, 0x00]
  usageFetch := .netError "usage endpoint unreachable"
  read2 := .ok [0xff, 0xd8, 0xff, 0x00]
  s3Result := .ok ()

/-- Trace of the concrete failing-fetch request: it reaches the quota stage
and is rejected there. -/
lemma c9input_trace :
    (uploadHandler c9input).trace
      = [.rateAdmit, .parseStart, .validateStart, .quotaStart, .unlinkTemp,
         .respond 429] := by
  have hval : validateFile [0xff, 0xd8, 0xff, 0x00] "image/jpeg" = .ok () := by
    rfl
  have hcu := checkUsageLimits_fallback_canUpload_false
    "usage endpoint unreachable" 2048
  have hsb : (fallbackUsage "usage endpoint unreachable").shouldBlockUploads
      = false := rfl
  simp only [uploadHandler, c9input]
  norm_num [isValidOrigin, rateLimitCheck, windowMs, maxAttempts,
    cleanupRateLimitEntry, ALLOWED_MIME_TYPES, hval, getCurrentUsage,
    failureMessage, hcu, hsb, List.contains, List.elem]

/-- C9 (witness): the theorem applied to a concrete failing fetch — the
quota gate refuses a 2048-byte file and the handler responds 429. -/
theorem usageFetch_failure_blocks_uploads_witness :
    (checkUsageLimits (fallbackUsage "usage endpoint unreachable") 2048).canUpload
        = false
      ∧ Dimension.storage ∈ (checkUsageLimits
          (fallbackUsage "usage endpoint unreachable") 2048).exceededLimits
      ∧ Ev.respond 429 ∈ (uploadHandler c9input).trace :=
  ⟨(usageFetch_failure_blocks_uploads.1 "usage endpoint unreachable" 2048).1,
   (usageFetch_failure_blocks_uploads.1 "usage endpoint unreachable"
       2048).2.2.2 (by norm_num),
   usageFetch_failure_blocks_uploads.2 c9input rfl (by rw [c9input_trace]; decide)⟩

/-! ## C6: quota approval precedes the put; accounting follows the put -/

/-- Helper: the fifteen event traces an execution of the `api/upload.js`
handler can produce. -/
lemma uploadHandler_trace_cases (i : HandlerInput) :
    (uploadHandler i).trace ∈ [
      [Ev.respond 500], [Ev.respond 405], [Ev.respond 403], [Ev.respond 429],
      [Ev.rateAdmit, Ev.respond 413],
      [Ev.rateAdmit, Ev.parseStart, Ev.respond 400],
      [Ev.rateAdmit, Ev.parseStart, Ev.unlinkTemp, Ev.respond 400],
      [Ev.rateAdmit, Ev.parseStart, Ev.validateStart, Ev.unlinkTemp,
       Ev.respond 400],
      [Ev.rateAdmit, Ev.parseStart, Ev.validateStart, Ev.quotaStart,
       Ev.unlinkTemp, Ev.respond 500],
      [Ev.rateAdmit, Ev.parseStart, Ev.validateStart, Ev.quotaStart,
       Ev.unlinkTemp, Ev.respond 429],
      [Ev.rateAdmit, Ev.parseStart, Ev.validateStart, Ev.quotaStart,
       Ev.quotaApproved, Ev.respond 500],
      [Ev.rateAdmit, Ev.parseStart, Ev.validateStart, Ev.quotaStart,
       Ev.quotaApproved, Ev.unlinkTemp, Ev.respond 400],
      [Ev.rateAdmit, Ev.parseStart, Ev.validateStart, Ev.quotaStart,
       Ev.quotaApproved, Ev.unlinkTemp, Ev.respond 500],
      [Ev.rateAdmit, Ev.parseStart, Ev.validateStart, Ev.quotaStart,
       Ev.quotaApproved, Ev.putStart, Ev.unlinkTemp, Ev.respond 500],
      [Ev.rateAdmit, Ev.parseStart, Ev.validateStart, Ev.quotaStart,
       Ev.quotaApproved, Ev.putStart, Ev.putOk, Ev.unlinkTemp,
       Ev.respond 200]] := by
  simp only [uploadHandler]
  repeat' split
  all_goals simp

/-- Helper: the event traces an execution of the worker-backed handler
variant can produce. -/
lemma p2Handler_trace_cases (j : P2Input) :
    p2Handler j ∈ [
      [Ev.respond 405], [Ev.respond 500],
      [Ev.parseStart, Ev.respond 400],
      [Ev.parseStart, Ev.unlinkTemp, Ev.respond 400],
      [Ev.parseStart, Ev.quotaStart, Ev.unlinkTemp, Ev.respond 429],
      [Ev.parseStart, Ev.quotaStart, Ev.quotaApproved, Ev.respond 500],
      [Ev.parseStart, Ev.quotaStart, Ev.quotaApproved, Ev.putStart,
       Ev.respond 500],
      [Ev.parseStart, Ev.quotaStart, Ev.quotaApproved, Ev.putStart, Ev.putOk,
       Ev.usageIncrement, Ev.unlinkTemp, Ev.respond 200]] := by
  simp only [p2Handler]
  repeat' split
  all_goals simp

/-- C6: in every execution of either upload handler, the quota gate's
approval strictly precedes the start of the blob-store put, and any
usage-accounting increment is strictly preceded by the confirmed successful
put (the canonical handler performs no increment at all; the worker-backed
variant increments only after `s3.send` resolves). -/
theorem quotaApproval_precedes_put_accounting_follows (i : HandlerInput)
    (j : P2Input) :
    precedes .quotaApproved .putStart (uploadHandler i).trace = true
      ∧ precedes .putOk .usageIncrement (uploadHandler i).trace = true
      ∧ precedes .quotaApproved .putStart (p2Handler j) = true
      ∧ precedes .putOk .usageIncrement (p2Handler j) = true := by
  have hu := uploadHandler_trace_cases i
  have hp := p2Handler_trace_cases j
  simp only [List.mem_cons, List.not_mem_nil, or_false] at hu hp
  refine ⟨?_, ?_, ?_, ?_⟩ <;>
    [rcases hu with h|h|h|h|h|h|h|h|h|h|h|h|h|h|h;
     rcases hu with h|h|h|h|h|h|h|h|h|h|h|h|h|h|h;
     rcases hp with h|h|h|h|h|h|h|h;
     rcases hp with h|h|h|h|h|h|h|h] <;>
    rw [h] <;> decide

/-! ## Rate limiter lemmas shared by the cleanup, admission and
sliding-window results -/

/-- The sweep is a no-op on a freshly stored list: its entries were just
filtered to the window and `now` itself is in the window. -/
lemma cleanupRateLimitEntry_fresh (attempts : List Nat) (now : Nat) :
    cleanupRateLimitEntry now
        ((attempts.filter fun t => decide (now - t < windowMs)) ++ [now])
      = (attempts.filter fun t => decide (now - t < windowMs)) ++ [now] := by
  apply List.filter_eq_self.mpr
  intro a ha
  rcases List.mem_append.mp ha with h | h
  · simpa using List.of_mem_filter h
  · simp only [List.mem_singleton] at h
    subst h
    simp [windowMs]

/-- An attempt over the cap is rejected and the stored list is untouched. -/
lemma rateLimitCheck_reject (attempts : List Nat) (now : Nat) (sweep : Bool)
    (h : maxAttempts
      ≤ (attempts.filter fun t => decide (now - t < windowMs)).length) :
    rateLimitCheck attempts now sweep = (false, attempts) := by
  simp [rateLimitCheck, h]

/-- An attempt under the cap is admitted and `now` is appended to the
filtered list (the probabilistic sweep changes nothing). -/
lemma rateLimitCheck_admit (attempts : List Nat) (now : Nat) (sweep : Bool)
    (h : (attempts.filter fun t => decide (now - t < windowMs)).length
      < maxAttempts) :
    rateLimitCheck attempts now sweep
      = (true,
         (attempts.filter fun t => decide (now - t < windowMs)) ++ [now]) := by
  have h' := Nat.not_le.mpr h
  cases sweep <;> simp [rateLimitCheck, h', cleanupRateLimitEntry_fresh]

/-! ## C7: the catch-all exit path leaks the temp buffer -/

/-- A snapshot far below every limit, as returned by a healthy usage
endpoint. -/
def lowUsage : Usage where
  storage :=
    { currentGB := 0, limit := STORAGE_GB, percentage := 0
      currentBytes := some 0 }
  classA := { currentValue := 0, limit := CLASS_A_OPERATIONS, percentage := 0 }
  classB := { currentValue := 0, limit := CLASS_B_OPERATIONS, percentage := 0 }
  error := none
  shouldBlockUploads := false

/-- Helper: the quota gate approves a 2048-byte file against `lowUsage`. -/
lemma checkUsageLimits_lowUsage_canUpload :
    (checkUsageLimits lowUsage 2048).canUpload = true := by
  simp only [checkUsageLimits, lowUsage]
  norm_num [STORAGE_GB, CLASS_A_OPERATIONS, CLASS_B_OPERATIONS, USAGE_THRESHOLD]

/-- Concrete request whose parsed file carries a `null` original filename
(formidable reports `null` when the client sends no filename): validation
and quota pass, then `originalFilename.split` throws a `TypeError`. -/
def c7input : HandlerInput where
  envOk := true
  method := "POST"
  env := ⟨none, none⟩
  origin := none
  rateState := []
  now := 0
  sweep := false
  contentLength := 2048
  parseResult := .ok (some ⟨none, 2048, "image/jpeg"⟩)
  read1 := .ok [0xff, 0xd8, 0xff, 0x00]
  usageFetch := .ok lowUsage
  read2 := .ok [0xff, 0xd8, 0xff, 0x00]
  s3Result := .ok ()

/-- C7: an execution that reaches the unhandled-error catch-all after the
file buffer exists releases the buffer ZERO times, not exactly once — the
catch-all's cleanup consults `req.files`, which this handler never
populates, so the temp file is leaked on that exit path. -/
theorem uploadHandler_catchAll_skips_cleanup :
    (uploadHandler c7input).trace
        = [.rateAdmit, .parseStart, .validateStart, .quotaStart,
           .quotaApproved, .respond 500]
      ∧ (uploadHandler c7input).trace.count .unlinkTemp = 0 := by
  have hval : validateFile [0xff, 0xd8, 0xff, 0x00] "image/jpeg" = .ok () := by
    rfl
  have hcu := checkUsageLimits_lowUsage_canUpload
  have hsb : (checkUsageLimits lowUsage 2048).shouldBlockUploads = false := rfl
  have htrace : (uploadHandler c7input).trace
      = [.rateAdmit, .parseStart, .validateStart, .quotaStart,
         .quotaApproved, .respond 500] := by
    simp only [uploadHandler, c7input]
    norm_num [isValidOrigin, rateLimitCheck, windowMs, maxAttempts,
      cleanupRateLimitEntry, ALLOWED_MIME_TYPES, hval, getCurrentUsage, hcu,
      hsb, List.contains, List.elem]
  exact ⟨htrace, by rw [htrace]; decide⟩

/-! ## C10: a rate-limit slot is consumed before parsing and validation -/

/-- C10: in every execution, the rate-limit admission (which appends the
attempt's timestamp) precedes any body parsing, file validation, or quota
check; and a request under a valid environment, POST method, and passing
origin that the limiter admits ends with `now` stored in the identity's
list — whatever later stage rejects it, the attempt still counts. -/
theorem rateSlot_consumed_before_validation (i : HandlerInput) :
    precedes .rateAdmit .parseStart (uploadHandler i).trace = true
      ∧ precedes .rateAdmit .validateStart (uploadHandler i).trace = true
      ∧ precedes .rateAdmit .quotaStart (uploadHandler i).trace = true
      ∧ (i.envOk = true → i.method = "POST" →
          isValidOrigin i.env i.origin = true →
          (rateLimitCheck i.rateState i.now i.sweep).1 = true →
          Ev.rateAdmit ∈ (uploadHandler i).trace
            ∧ (uploadHandler i).rateState
                = (i.rateState.filter fun t => decide (i.now - t < windowMs))
                    ++ [i.now]) := by
  have hu := uploadHandler_trace_cases i
  simp only [List.mem_cons, List.not_mem_nil, or_false] at hu
  refine ⟨?_, ?_, ?_, ?_⟩
  · rcases hu with h|h|h|h|h|h|h|h|h|h|h|h|h|h|h <;> rw [h] <;> decide
  · rcases hu with h|h|h|h|h|h|h|h|h|h|h|h|h|h|h <;> rw [h] <;> decide
  · rcases hu with h|h|h|h|h|h|h|h|h|h|h|h|h|h|h <;> rw [h] <;> decide
  · intro h1 h2 h3 h4
    by_cases hlen :
        (i.rateState.filter fun t => decide (i.now - t < windowMs)).length
          < maxAttempts
    · have hadm := rateLimitCheck_admit i.rateState i.now i.sweep hlen
      constructor
      · simp only [uploadHandler, h1, h2, h3, hadm]
        norm_num
        repeat' split
        all_goals simp
      · simp only [uploadHandler, h1, h2, h3, hadm]
        norm_num
        repeat' split
        all_goals rfl
    · rw [rateLimitCheck_reject i.rateState i.now i.sweep
        (Nat.not_lt.mp hlen)] at h4
      simp at h4

/-- Concrete admitted request (fresh identity, valid environment). -/
def c10input : HandlerInput where
  envOk := true
  method := "POST"
  env := ⟨none, none⟩
  origin := none
  rateState := []
  now := 0
  sweep := false
  contentLength := 0
  parseResult := .ok none
  read1 := .ok []
  usageFetch := .okMalformed
  read2 := .ok []
  s3Result := .ok ()

/-- C10 (witness): the theorem applied to a concrete admitted request whose
timestamp ends up stored. -/
theorem rateSlot_consumed_before_validation_witness :
    Ev.rateAdmit ∈ (uploadHandler c10input).trace
      ∧ (uploadHandler c10input).rateState = [0] := by
  have h := (rateSlot_consumed_before_validation c10input).2.2.2 rfl rfl
    (by decide) (by decide)
  exact ⟨h.1, h.2.trans (by decide)⟩

/-! ## C3: the sliding-window rate limit -/

/-- Window membership as a decidable window condition: `windowMs` is
positive, so for every `now` and `t` the stored-entry test
`now - t < windowMs` (truncated subtraction) is `now < t + windowMs`. -/
lemma winTest_iff (now t : Nat) :
    (decide (now - t < windowMs) = true) ↔ now < t + windowMs := by
  simp [windowMs]
  omega

/-- C3 (counterexample): twenty admissions at times `0..19` followed by one
at `900000` are all admitted — 21 admissions — yet all 21 timestamps lie in
the CLOSED window `[0, 0 + windowMs]` of width exactly `windowMs`, because
the entry at exactly `now - windowMs` is filtered out (the code's window is
half-open, not closed). The attempt sequence is `c3run` below. -/
def c3run : List (Nat × Bool) :=
  ((List.range 20).map fun k => (k, false)) ++ [(900000, false)]

theorem rateLimiter_closed_window_violated :
    List.Pairwise (· ≤ ·) (c3run.map Prod.fst)
      ∧ (rlRun [] c3run).1.countP
          (fun t => decide (0 ≤ t ∧ t ≤ 0 + windowMs)) = 21
      ∧ maxAttempts = 20 :=
  ⟨by decide, by decide, rfl⟩

/-- Invariant step: the count of admitted timestamps inside any sliding
window `(x - windowMs, x]` stays below the cap throughout a monotone run.
`s` is the stored list, `A` the timestamps admitted so far, `T` an upper
bound on every time seen so far. -/
lemma rlRun_window_bound (ts : List (Nat × Bool)) :
    ∀ (s A : List Nat) (T : Nat),
      List.Pairwise (· ≤ ·) (ts.map Prod.fst) →
      (∀ p ∈ ts, T ≤ p.1) →
      (∀ t ∈ A, t ≤ T) →
      (∀ t ∈ s, t ≤ T) →
      (∀ now, T ≤ now → s.countP (inWin now) = A.countP (inWin now)) →
      (∀ x, A.countP (inWin x) ≤ maxAttempts) →
      ∀ x, (A ++ (rlRun s ts).1).countP (inWin x) ≤ maxAttempts := by
  induction ts with
  | nil =>
    intro s A T _ _ _ _ _ hbound x
    simpa [rlRun] using hbound x
  | cons p rest ih =>
    obtain ⟨now, sweep⟩ := p
    intro s A T hmono hT hA hs hcount hbound x
    simp only [List.map_cons, List.pairwise_cons] at hmono
    obtain ⟨hfirst, hmono'⟩ := hmono
    have hTnow : T ≤ now := hT _ (List.mem_cons_self _ _)
    have hrest : ∀ q ∈ rest, now ≤ q.1 := fun q hq =>
      hfirst _ (List.mem_map_of_mem _ hq)
    by_cases hlen :
        (s.filter fun t => decide (now - t < windowMs)).length < maxAttempts
    · -- admitted: the stored list becomes `recent ++ [now]`
      have hadm := rateLimitCheck_admit s now sweep hlen
      have hrun : (rlRun s ((now, sweep) :: rest)).1
          = now :: (rlRun
              ((s.filter fun t => decide (now - t < windowMs)) ++ [now])
              rest).1 := by
        simp [rlRun, hadm]
      rw [hrun, List.append_cons]
      -- the count of admitted times in the window ending at `now` is the
      -- filtered length
      have hAnow : A.countP (inWin now)
          ≤ (s.filter fun t => decide (now - t < windowMs)).length := by
        rw [← hcount now hTnow, ← List.countP_eq_length_filter]
        apply List.countP_mono_left
        intro a ha hwa
        simp only [inWin, Bool.and_eq_true, decide_eq_true_eq] at hwa
        rw [winTest_iff]
        omega
      apply ih ((s.filter fun t => decide (now - t < windowMs)) ++ [now])
        (A ++ [now]) now hmono' hrest
      · intro t ht
        rcases List.mem_append.mp ht with h | h
        · exact le_trans (hA t h) hTnow
        · simp only [List.mem_singleton] at h
          exact h.le
      · intro t ht
        rcases List.mem_append.mp ht with h | h
        · exact le_trans (hs t (List.mem_of_mem_filter h)) hTnow
        · simp only [List.mem_singleton] at h
          exact h.le
      · -- the filtered-and-extended store counts like the admitted list in
        -- every later window
        intro now' hnow'
        rw [List.countP_append, List.countP_append]
        congr 1
        rw [List.countP_filter]
        rw [← hcount now' (le_trans hTnow hnow')]
        apply List.countP_congr
        intro a ha
        by_cases hwa : inWin now' a = true
        · have hda : decide (now - a < windowMs) = true := by
            simp only [inWin, Bool.and_eq_true, decide_eq_true_eq] at hwa
            rw [winTest_iff]
            omega
          simp [hwa, hda]
        · simp only [Bool.not_eq_true] at hwa
          simp [hwa]
      · -- the cap still holds after appending `now`
        intro y
        rw [List.countP_append]
        by_cases hy : inWin y now = true
        · have h1 : A.countP (inWin y) ≤ A.countP (inWin now) := by
            apply List.countP_mono_left
            intro a ha hwa
            simp only [inWin, Bool.and_eq_true, decide_eq_true_eq] at hy hwa ⊢
            exact ⟨by omega, le_trans (hA a ha) hTnow⟩
          have h2 : [now].countP (inWin y) ≤ 1 := by
            simp [List.countP_cons, hy]
          omega
        · have h2 : [now].countP (inWin y) = 0 := by
            simp only [Bool.not_eq_true] at hy
            simp [List.countP_cons, hy]
          have := hbound y
          omega
    · -- rejected: nothing changes
      have hrej := rateLimitCheck_reject s now sweep (Nat.not_lt.mp hlen)
      have hrun : (rlRun s ((now, sweep) :: rest)).1
          = (rlRun s rest).1 := by
        simp [rlRun, hrej]
      rw [hrun]
      apply ih s A now hmono' hrest
        (fun t ht => le_trans (hA t ht) hTnow)
        (fun t ht => le_trans (hs t ht) hTnow)
        (fun now' hnow' => hcount now' (le_trans hTnow hnow'))
        hbound x

/-- C3 (amended): with the window read as the code's half-open
`(now - windowMs, now]` rather than the closed `[now - windowMs, now]`:
an attempt with `maxAttempts` stored timestamps in the window is rejected
without mutating the stored list; an admitted attempt appends `now` to the
filtered list; and over any monotonically non-decreasing attempt sequence
the limiter admits at most `maxAttempts` timestamps in any half-open
sliding window of width `windowMs`. -/
theorem rateLimiter_sliding_window_cap :
    (∀ (attempts : List Nat) (now : Nat) (sweep : Bool),
        maxAttempts
            ≤ (attempts.filter fun t => decide (now - t < windowMs)).length →
        rateLimitCheck attempts now sweep = (false, attempts))
      ∧ (∀ (attempts : List Nat) (now : Nat) (sweep : Bool),
          (attempts.filter fun t => decide (now - t < windowMs)).length
              < maxAttempts →
          rateLimitCheck attempts now sweep
            = (true, (attempts.filter fun t => decide (now - t < windowMs))
                ++ [now]))
      ∧ (∀ ts : List (Nat × Bool),
          List.Pairwise (· ≤ ·) (ts.map Prod.fst) →
          ∀ x, (rlRun [] ts).1.countP (inWin x) ≤ maxAttempts) := by
  refine ⟨rateLimitCheck_reject, rateLimitCheck_admit, ?_⟩
  intro ts hmono x
  have h := rlRun_window_bound ts [] [] 0 hmono (fun p _ => Nat.zero_le _)
    (by simp) (by simp) (fun now _ => rfl) (fun y => by simp) x
  simpa using h

/-- C3 (witness): the amended theorem applied to a concrete two-attempt
monotone run. -/
theorem rateLimiter_sliding_window_cap_witness :
    List.Pairwise (· ≤ ·)
        (([(0, false), (1, false)] : List (Nat × Bool)).map Prod.fst)
      ∧ (rlRun [] [(0, false), (1, false)]).1.countP (inWin 1)
          ≤ maxAttempts :=
  ⟨by decide,
   rateLimiter_sliding_window_cap.2.2 [(0, false), (1, false)] (by decide) 1⟩
